import Mathlib

/-!
Verification of the server-supervisor core of the hexdeck menubar shell
(`packages/menubar/src-tauri/src/lib.rs`), shallowly embedded.

The supervisor interacts with an external world through a handful of
effectful primitives: TCP reachability probes, reading and deleting the
PID file, a `kill(pid, 0)` liveness probe, and spawning the server binary.
We model that world as an `Env` of oracles (reachability probes are
indexed by how many probes have happened so far, so successive probes may
answer differently), the supervisor's mutable state as `St`
(`SPAWN_ATTEMPTED` plus the probe counter), and every externally visible
action as an `Effect` recorded in a trace.  `ensure_server_running`
mirrors the Rust control flow line by line.
-/

namespace Hexdeck

/-- `SERVER_PORT` constant from the source. -/
def SERVER_PORT : Nat := 7433

/-- The deserialized contents of `~/.hexdeck/server.pid`.
`pid` is a `u64` in the source, modelled as `Nat` (< 2^64 in practice,
but no bound is needed by the supervisor logic). -/
structure PidInfo where
  pid : Nat
  port : Nat
deriving Repr, DecidableEq

/-- One externally visible action of the supervisor. -/
inductive Effect where
  /-- a TCP reachability probe returned `ok` -/
  | probe (ok : Bool)
  /-- `thread::sleep` for `ms` milliseconds -/
  | sleepMs (ms : Nat)
  /-- `fs::remove_file path` was attempted -/
  | removeFile (path : String)
  /-- `fs::set_permissions path 0o755` was attempted (a filesystem write) -/
  | setPermissions (path : String)
  /-- the atomic `SPAWN_ATTEMPTED.swap(true)`; `prev` is the value it returned -/
  | gateSwap (prev : Bool)
  /-- the spawn operation `spawn_server` was invoked -/
  | spawnOp
  /-- `Command::spawn` was executed on the binary at `path` -/
  | spawnExec (path : String)
  /-- a diagnostic line was written to stderr -/
  | logErr (msg : String)
deriving Repr, DecidableEq

/-- The environment: oracles for every observation the supervisor makes.
`reachable k` is the outcome of the `k`-th TCP probe this process performs
(the probe counter lives in `St`); the remaining fields are fixed for the
duration of the calls under study. -/
structure Env where
  reachable : Nat → Bool
  homeDir : Option String
  pidFileRead : Option String
  pidParse : String → Option PidInfo
  killZero : Int → Bool
  resourceDirOpt : Option String
  binaryExists : Bool
  dashboardExists : Bool
  spawnOk : Bool

/-- Supervisor-visible mutable state: the `SPAWN_ATTEMPTED` atomic flag,
plus the probe counter that sequences reachability observations. -/
structure St where
  spawnAttempted : Bool
  probeCount : Nat
deriving Repr, DecidableEq

/-- `hexdeck_dir`: `dirs::home_dir().map(|h| h.join(".hexdeck"))`. -/
def hexdeck_dir (env : Env) : Option String :=
  env.homeDir.map (fun h => h ++ "/.hexdeck")

/-- `is_server_reachable`: the `k`-th TCP connect attempt to
`127.0.0.1:SERVER_PORT` with a 2 s timeout, as answered by the oracle. -/
def is_server_reachable (env : Env) (k : Nat) : Bool :=
  env.reachable k

/-- `load_pid_info`: read `hexdeck_dir()?/server.pid` and JSON-parse it;
any failure (no home dir, unreadable file, parse error) yields `none`. -/
def load_pid_info (env : Env) : Option PidInfo := do
  let _dir ← hexdeck_dir env
  let data ← env.pidFileRead
  env.pidParse data

/-- The `pid as i32` cast from the source: truncate a `u64` to its low
32 bits and reinterpret them as a two's-complement signed 32-bit value. -/
def toI32 (n : Nat) : Int :=
  if n % 2 ^ 32 < 2 ^ 31 then ((n % 2 ^ 32 : Nat) : Int)
  else ((n % 2 ^ 32 : Nat) : Int) - 2 ^ 32

/-- `is_pid_running`: `libc::kill(pid as i32, 0) == 0`. -/
def is_pid_running (env : Env) (pid : Nat) : Bool :=
  env.killZero (toI32 pid)

/-- `spawn_server`: resolve the resource dir, check the binary exists,
re-assert its executable bit, and spawn it detached.  Returns the
`Result` together with the effects performed. -/
def spawn_server (env : Env) : Except String Unit × List Effect :=
  match env.resourceDirOpt with
  | none => (Except.error "Cannot resolve resource dir", [])
  | some rd =>
    let binary := rd ++ "/hexdeck-server"
    if env.binaryExists then
      let effs := [Effect.setPermissions binary, Effect.spawnExec binary]
      if env.spawnOk then (Except.ok (), effs)
      else (Except.error "Failed to spawn server", effs)
    else
      (Except.error ("Server binary not found at " ++ binary), [])

/-- One of the two `for _ in 0..10` polling loops: sleep 500 ms, probe,
stop on success.  The first component reports whether a probe succeeded,
the second is the state after the loop, the third the trace.  Fuel is the
remaining number of iterations (10 at the call sites, as in the source). -/
def waitLoop (env : Env) : Nat → St → Bool × St × List Effect
  | 0, st => (false, st, [])
  | Nat.succ n, st =>
    let ok := is_server_reachable env st.probeCount
    let st' : St := { st with probeCount := st.probeCount + 1 }
    if ok then (true, st', [Effect.sleepMs 500, Effect.probe true])
    else
      let rest := waitLoop env n st'
      (rest.1, rest.2.1, Effect.sleepMs 500 :: Effect.probe false :: rest.2.2)

/-- The spawn gate and everything after it, from the
`SPAWN_ATTEMPTED.swap(true, SeqCst)` line to the end of
`ensure_server_running`: if the flag was already set, return; otherwise
invoke `spawn_server`, and on success run the post-spawn polling loop,
resetting the flag if the server becomes reachable. -/
def spawnGate (env : Env) (st : St) : St × List Effect :=
  if st.spawnAttempted then
    ({ st with spawnAttempted := true }, [Effect.gateSwap true])
  else
    let stG : St := { st with spawnAttempted := true }
    match (spawn_server env).1 with
    | Except.error e =>
      (stG, Effect.gateSwap false :: Effect.spawnOp ::
        ((spawn_server env).2 ++ [Effect.logErr ("hexdeck: " ++ e)]))
    | Except.ok _ =>
      let w := waitLoop env 10 stG
      if w.1 then
        ({ w.2.1 with spawnAttempted := false },
          Effect.gateSwap false :: Effect.spawnOp :: ((spawn_server env).2 ++ w.2.2))
      else
        (w.2.1,
          Effect.gateSwap false :: Effect.spawnOp ::
            ((spawn_server env).2 ++ w.2.2 ++
              [Effect.logErr "hexdeck: server spawned but not reachable after 5s"]))

/-- `ensure_server_running`, the whole supervisor pass: fast-path probe,
stale-PID reconciliation (delete a dead record, or wait out a live but
not-yet-listening server), then the spawn gate. -/
def ensure_server_running (env : Env) (st : St) : St × List Effect :=
  let r0 := is_server_reachable env st.probeCount
  let st1 : St := { st with probeCount := st.probeCount + 1 }
  if r0 then
    ({ st1 with spawnAttempted := false }, [Effect.probe true])
  else
    match load_pid_info env with
    | some info =>
      if !(is_pid_running env info.pid) then
        let cleanup : List Effect :=
          match hexdeck_dir env with
          | some dir => [Effect.removeFile (dir ++ "/server.pid")]
          | none => []
        let g := spawnGate env st1
        (g.1, Effect.probe false :: (cleanup ++ g.2))
      else
        let w := waitLoop env 10 st1
        if w.1 then (w.2.1, Effect.probe false :: w.2.2)
        else
          let g := spawnGate env w.2.1
          (g.1, Effect.probe false :: (w.2.2 ++ g.2))
    | none =>
      let g := spawnGate env st1
      (g.1, Effect.probe false :: g.2)

/-! ### Trace observations -/

/-- Is this effect the spawn-gate swap? -/
def isGateEff : Effect → Bool
  | Effect.gateSwap _ => true
  | _ => false

/-- Is this effect an invocation of the spawn operation? -/
def isSpawnOpEff : Effect → Bool
  | Effect.spawnOp => true
  | _ => false

/-- Is this effect a reachability probe? -/
def isProbeEff : Effect → Bool
  | Effect.probe _ => true
  | _ => false

/-- Is this effect a successful reachability probe? -/
def isTrueProbe : Effect → Bool
  | Effect.probe true => true
  | _ => false

/-- Is this effect a filesystem write (file removal or permission change)? -/
def isWriteEff : Effect → Bool
  | Effect.removeFile _ => true
  | Effect.setPermissions _ => true
  | _ => false

/-- Is this effect a sleep? -/
def isSleepEff : Effect → Bool
  | Effect.sleepMs _ => true
  | _ => false

/-- Is this effect a diagnostic log line? -/
def isLogEff : Effect → Bool
  | Effect.logErr _ => true
  | _ => false

/-- Is this effect an actual `Command::spawn` execution? -/
def isExecEff : Effect → Bool
  | Effect.spawnExec _ => true
  | _ => false

/-- Number of spawn-operation invocations recorded in a trace. -/
def countSpawn (tr : List Effect) : Nat :=
  tr.countP isSpawnOpEff

/-- Does this call of `ensure_server_running` reach the spawn gate? -/
def reachesGate (env : Env) (st : St) : Bool :=
  ((ensure_server_running env st).2).any isGateEff

/-- The part of a trace strictly after the (first) spawn-gate swap. -/
def postGate (tr : List Effect) : List Effect :=
  (tr.dropWhile (fun e => !(isGateEff e))).drop 1

/-- Is this effect a PID-file removal? -/
def isRemoveEff : Effect → Bool
  | Effect.removeFile _ => true
  | _ => false

/-! ### Concrete environments for exercising the theorems -/

/-- Server down, no PID file, server binary missing. -/
def envDown : Env :=
  { reachable := fun _ => false
    homeDir := some "/home/user"
    pidFileRead := none
    pidParse := fun _ => none
    killZero := fun _ => false
    resourceDirOpt := some "/res"
    binaryExists := false
    dashboardExists := false
    spawnOk := false }

/-- Server already reachable. -/
def envUp : Env :=
  { envDown with reachable := fun _ => true }

/-- Server initially down, binary present; it becomes reachable from the
third probe on (so the post-spawn wait succeeds on its second attempt). -/
def envSpawnable : Env :=
  { envDown with
    reachable := fun k => decide (2 ≤ k)
    binaryExists := true
    spawnOk := true }

/-- Server mid-startup: a live recorded pid, reachable from the third
probe on. -/
def envLivePid : Env :=
  { envDown with
    reachable := fun k => decide (2 ≤ k)
    pidFileRead := some "pidfile"
    pidParse := fun _ => some { pid := 4242, port := 7433 }
    killZero := fun _ => true }

/-- Server down; the PID file exists but does not parse as JSON. -/
def envBadPidFile : Env :=
  { envDown with
    pidFileRead := some "not json"
    binaryExists := true
    spawnOk := true }

/-- Server down; the PID file parses but names a dead pid. -/
def envDeadPid : Env :=
  { envDown with
    pidFileRead := some "pidfile"
    pidParse := fun _ => some { pid := 4242, port := 7433 } }

/-- The home directory cannot be determined, but the resource dir and the
binary are fine. -/
def envNoHomeSpawn : Env :=
  { envDown with
    homeDir := none
    binaryExists := true
    spawnOk := true }

/-- Neither the home directory nor the resource directory resolves. -/
def envNoDirs : Env :=
  { envDown with
    homeDir := none
    resourceDirOpt := none }

/-- A liveness oracle that answers whether the probed value was negative. -/
def envKillNeg : Env :=
  { envDown with killZero := fun i => decide (i < 0) }

/-! ### Invariants of the polling loop -/

theorem waitLoop_mem (env : Env) (n : Nat) (st : St) :
    ∀ e ∈ (waitLoop env n st).2.2,
      e = Effect.sleepMs 500 ∨ e = Effect.probe true ∨ e = Effect.probe false := by
  induction n generalizing st with
  | zero => simp [waitLoop]
  | succ n ih =>
    intro e he
    simp only [waitLoop] at he
    cases h : is_server_reachable env st.probeCount with
    | true =>
      rw [h] at he
      simp at he
      rcases he with h1 | h1 <;> simp [h1]
    | false =>
      rw [h] at he
      simp at he
      rcases he with h1 | h1 | h1
      · exact Or.inl h1
      · exact Or.inr (Or.inr h1)
      · exact ih _ e h1

theorem waitLoop_spawnAttempted (env : Env) (n : Nat) (st : St) :
    ((waitLoop env n st).2.1).spawnAttempted = st.spawnAttempted := by
  induction n generalizing st with
  | zero => rfl
  | succ n ih =>
    simp only [waitLoop]
    cases h : is_server_reachable env st.probeCount with
    | true => simp
    | false => simpa using ih _

theorem waitLoop_found_eq_any (env : Env) (n : Nat) (st : St) :
    (waitLoop env n st).1 = ((waitLoop env n st).2.2).any isTrueProbe := by
  induction n generalizing st with
  | zero => rfl
  | succ n ih =>
    simp only [waitLoop]
    cases h : is_server_reachable env st.probeCount with
    | true => simp [isTrueProbe]
    | false =>
      simp only [Bool.false_eq_true, if_false, List.any_cons]
      rw [← ih _]
      simp [isTrueProbe]

theorem waitLoop_getLast (env : Env) (n : Nat) (st : St)
    (h : (waitLoop env n st).1 = true) :
    ((waitLoop env n st).2.2).getLast? = some (Effect.probe true) := by
  induction n generalizing st with
  | zero => simp [waitLoop] at h
  | succ n ih =>
    simp only [waitLoop] at h ⊢
    cases hp : is_server_reachable env st.probeCount with
    | true => simp
    | false =>
      rw [hp] at h
      simp only [Bool.false_eq_true, if_false] at h ⊢
      have h' := ih _ h
      rcases hc : (waitLoop env n { st with probeCount := st.probeCount + 1 }).2.2
        with _ | ⟨a, l⟩
      · rw [hc] at h'; simp at h'
      · rw [hc] at h'
        rw [List.getLast?_cons_cons, List.getLast?_cons_cons]
        exact h'

theorem waitLoop_probes_le (env : Env) (n : Nat) (st : St) :
    ((waitLoop env n st).2.2).countP isProbeEff ≤ n := by
  induction n generalizing st with
  | zero => simp [waitLoop]
  | succ n ih =>
    simp only [waitLoop]
    cases h : is_server_reachable env st.probeCount with
    | true => simp [isProbeEff]
    | false =>
      have := ih ({ st with probeCount := st.probeCount + 1 })
      simp [isProbeEff] at this ⊢
      omega

theorem waitLoop_sleeps_le (env : Env) (n : Nat) (st : St) :
    ((waitLoop env n st).2.2).countP isSleepEff ≤ n := by
  induction n generalizing st with
  | zero => simp [waitLoop]
  | succ n ih =>
    simp only [waitLoop]
    cases h : is_server_reachable env st.probeCount with
    | true => simp [isSleepEff]
    | false =>
      have := ih ({ st with probeCount := st.probeCount + 1 })
      simp [isSleepEff] at this ⊢
      omega

/-! ### List helpers -/

theorem dropWhile_append_all {α : Type} (p : α → Bool) :
    ∀ (l₁ l₂ : List α), (∀ e ∈ l₁, p e = true) →
      (l₁ ++ l₂).dropWhile p = l₂.dropWhile p
  | [], _, _ => rfl
  | a :: l₁, l₂, h => by
    rw [List.cons_append, List.dropWhile_cons, if_pos (h a (by simp))]
    exact dropWhile_append_all p l₁ l₂ (fun e he => h e (by simp [he]))

theorem postGate_probe_pre (pre rest : List Effect) (b : Bool)
    (hpre : ∀ e ∈ pre, isGateEff e = false) :
    postGate (Effect.probe false :: (pre ++ Effect.gateSwap b :: rest)) = rest := by
  unfold postGate
  rw [List.dropWhile_cons,
    if_pos (show ((fun e => !isGateEff e) (Effect.probe false)) = true from rfl),
    dropWhile_append_all _ pre _ (fun e he => by simp [hpre e he]),
    List.dropWhile_cons,
    if_neg (show ¬(((fun e => !isGateEff e) (Effect.gateSwap b)) = true) from
      by simp [isGateEff])]
  rfl

/-! ### Effects of `spawn_server` -/

theorem spawn_server_effs (env : Env) :
    ∀ e ∈ (spawn_server env).2,
      ∃ b, e = Effect.setPermissions b ∨ e = Effect.spawnExec b := by
  intro e he
  rcases hrd : env.resourceDirOpt with _ | rd <;>
    by_cases hb : env.binaryExists <;>
    by_cases hs : env.spawnOk <;>
    simp [spawn_server, hrd, hb, hs] at he <;>
    rcases he with h | h <;>
    first
      | exact ⟨_, Or.inl h⟩
      | exact ⟨_, Or.inr h⟩

theorem spawn_server_countSpawn (env : Env) :
    countSpawn (spawn_server env).2 = 0 := by
  rw [countSpawn, List.countP_eq_zero]
  intro e he
  rcases spawn_server_effs env e he with ⟨b, h | h⟩ <;> simp [h, isSpawnOpEff]

theorem spawn_server_no_gate (env : Env) :
    ∀ e ∈ (spawn_server env).2, isGateEff e = false := by
  intro e he
  rcases spawn_server_effs env e he with ⟨b, h | h⟩ <;> simp [h, isGateEff]

theorem spawn_server_no_probe (env : Env) :
    ∀ e ∈ (spawn_server env).2, isTrueProbe e = false := by
  intro e he
  rcases spawn_server_effs env e he with ⟨b, h | h⟩ <;> simp [h, isTrueProbe]

/-! ### Consequences for the polling loop trace -/

theorem waitLoop_countSpawn (env : Env) (n : Nat) (st : St) :
    countSpawn (waitLoop env n st).2.2 = 0 := by
  rw [countSpawn, List.countP_eq_zero]
  intro e he
  rcases waitLoop_mem env n st e he with h | h | h <;> simp [h, isSpawnOpEff]

theorem waitLoop_no_gate (env : Env) (n : Nat) (st : St) :
    ∀ e ∈ (waitLoop env n st).2.2, isGateEff e = false := by
  intro e he
  rcases waitLoop_mem env n st e he with h | h | h <;> simp [h, isGateEff]

theorem waitLoop_notfound_no_true_probe (env : Env) (n : Nat) (st : St)
    (h : (waitLoop env n st).1 = false) :
    ∀ e ∈ (waitLoop env n st).2.2, isTrueProbe e = false := by
  intro e he
  have hany := waitLoop_found_eq_any env n st
  rw [h] at hany
  simpa using List.any_eq_false.mp hany.symm e he

/-! ### The spawn gate, case by case -/

theorem spawnGate_flagged (env : Env) (st : St) (h : st.spawnAttempted = true) :
    spawnGate env st = ({ st with spawnAttempted := true }, [Effect.gateSwap true]) := by
  simp [spawnGate, h]

theorem spawnGate_err (env : Env) (st : St) (e : String)
    (hf : st.spawnAttempted = false) (he : (spawn_server env).1 = Except.error e) :
    spawnGate env st =
      ({ st with spawnAttempted := true },
        Effect.gateSwap false :: Effect.spawnOp ::
          ((spawn_server env).2 ++ [Effect.logErr ("hexdeck: " ++ e)])) := by
  simp [spawnGate, hf, he]

theorem spawnGate_ok_found (env : Env) (st : St)
    (hf : st.spawnAttempted = false) (ho : (spawn_server env).1 = Except.ok ())
    (hw : (waitLoop env 10 { st with spawnAttempted := true }).1 = true) :
    spawnGate env st =
      ({ (waitLoop env 10 { st with spawnAttempted := true }).2.1 with
          spawnAttempted := false },
        Effect.gateSwap false :: Effect.spawnOp ::
          ((spawn_server env).2 ++
            (waitLoop env 10 { st with spawnAttempted := true }).2.2)) := by
  simp [spawnGate, hf, ho, hw]

theorem spawnGate_ok_notfound (env : Env) (st : St)
    (hf : st.spawnAttempted = false) (ho : (spawn_server env).1 = Except.ok ())
    (hw : (waitLoop env 10 { st with spawnAttempted := true }).1 = false) :
    spawnGate env st =
      ((waitLoop env 10 { st with spawnAttempted := true }).2.1,
        Effect.gateSwap false :: Effect.spawnOp ::
          ((spawn_server env).2 ++
            (waitLoop env 10 { st with spawnAttempted := true }).2.2 ++
            [Effect.logErr "hexdeck: server spawned but not reachable after 5s"])) := by
  simp [spawnGate, hf, ho, hw]

theorem spawnGate_trace_head (env : Env) (st : St) :
    ∃ rest, (spawnGate env st).2 = Effect.gateSwap st.spawnAttempted :: rest := by
  cases hf : st.spawnAttempted with
  | true => exact ⟨_, by rw [spawnGate_flagged env st hf]⟩
  | false =>
    rcases hs : (spawn_server env).1 with e | u
    · exact ⟨_, by rw [spawnGate_err env st e hf hs]⟩
    · cases u
      cases hw : (waitLoop env 10 { st with spawnAttempted := true }).1 with
      | true => exact ⟨_, by rw [spawnGate_ok_found env st hf hs hw]⟩
      | false => exact ⟨_, by rw [spawnGate_ok_notfound env st hf hs hw]⟩

theorem spawnGate_countSpawn_le (env : Env) (st : St) :
    countSpawn (spawnGate env st).2 ≤ 1 := by
  cases hf : st.spawnAttempted with
  | true => rw [spawnGate_flagged env st hf]; simp [countSpawn, isSpawnOpEff]
  | false =>
    rcases hs : (spawn_server env).1 with e | u
    · rw [spawnGate_err env st e hf hs]
      rw [countSpawn, List.countP_cons, List.countP_cons, List.countP_append]
      have h1 := spawn_server_countSpawn env
      rw [countSpawn] at h1
      rw [h1,
        show List.countP isSpawnOpEff [Effect.logErr ("hexdeck: " ++ e)] = 0 from rfl,
        show (if isSpawnOpEff Effect.spawnOp = true then 1 else 0) = 1 from rfl,
        show (if isSpawnOpEff (Effect.gateSwap false) = true then 1 else 0) = 0 from rfl]
    · cases u
      cases hw : (waitLoop env 10 { st with spawnAttempted := true }).1 with
      | true =>
        rw [spawnGate_ok_found env st hf hs hw]
        have h1 := spawn_server_countSpawn env
        have h2 := waitLoop_countSpawn env 10 ({ st with spawnAttempted := true })
        rw [countSpawn] at h1 h2 ⊢
        rw [List.countP_cons, List.countP_cons, List.countP_append, h1, h2,
          show (if isSpawnOpEff Effect.spawnOp = true then 1 else 0) = 1 from rfl,
          show (if isSpawnOpEff (Effect.gateSwap false) = true then 1 else 0) = 0 from rfl]
      | false =>
        rw [spawnGate_ok_notfound env st hf hs hw]
        have h1 := spawn_server_countSpawn env
        have h2 := waitLoop_countSpawn env 10 ({ st with spawnAttempted := true })
        rw [countSpawn] at h1 h2 ⊢
        rw [List.countP_cons, List.countP_cons, List.countP_append,
          List.countP_append, h1, h2,
          show List.countP isSpawnOpEff
            [Effect.logErr "hexdeck: server spawned but not reachable after 5s"] = 0
            from rfl,
          show (if isSpawnOpEff Effect.spawnOp = true then 1 else 0) = 1 from rfl,
          show (if isSpawnOpEff (Effect.gateSwap false) = true then 1 else 0) = 0 from rfl]

theorem spawnGate_countSpawn_flagged (env : Env) (st : St)
    (h : st.spawnAttempted = true) :
    countSpawn (spawnGate env st).2 = 0 := by
  rw [spawnGate_flagged env st h]
  simp [countSpawn, isSpawnOpEff]

theorem spawnGate_flag_after (env : Env) (st : St)
    (h : ((spawnGate env st).2).any isTrueProbe = false) :
    ((spawnGate env st).1).spawnAttempted = true := by
  cases hf : st.spawnAttempted with
  | true => rw [spawnGate_flagged env st hf]
  | false =>
    rcases hs : (spawn_server env).1 with e | u
    · rw [spawnGate_err env st e hf hs]
    · cases u
      cases hw : (waitLoop env 10 { st with spawnAttempted := true }).1 with
      | true =>
        exfalso
        rw [spawnGate_ok_found env st hf hs hw] at h
        have hany := waitLoop_found_eq_any env 10 ({ st with spawnAttempted := true })
        rw [hw] at hany
        rw [List.any_cons, List.any_cons, List.any_append, ← hany] at h
        simp [isTrueProbe] at h
      | false =>
        rw [spawnGate_ok_notfound env st hf hs hw]
        rw [waitLoop_spawnAttempted]

/-! ### Branch equations for `ensure_server_running` -/

theorem hexdeck_dir_of_load (env : Env) (info : PidInfo)
    (h : load_pid_info env = some info) :
    ∃ dir, hexdeck_dir env = some dir := by
  unfold load_pid_info at h
  rcases hd : hexdeck_dir env with _ | d
  · rw [hd] at h; simp at h
  · exact ⟨d, rfl⟩

theorem ensure_eq_reachable (env : Env) (st : St)
    (h0 : is_server_reachable env st.probeCount = true) :
    ensure_server_running env st =
      ({ spawnAttempted := false, probeCount := st.probeCount + 1 },
        [Effect.probe true]) := by
  simp [ensure_server_running, h0]

theorem ensure_eq_noinfo (env : Env) (st : St)
    (h0 : is_server_reachable env st.probeCount = false)
    (hL : load_pid_info env = none) :
    ensure_server_running env st =
      ((spawnGate env { st with probeCount := st.probeCount + 1 }).1,
        Effect.probe false ::
          (spawnGate env { st with probeCount := st.probeCount + 1 }).2) := by
  simp [ensure_server_running, h0, hL]

theorem ensure_eq_dead (env : Env) (st : St) (info : PidInfo) (dir : String)
    (h0 : is_server_reachable env st.probeCount = false)
    (hL : load_pid_info env = some info)
    (hd : hexdeck_dir env = some dir)
    (hp : is_pid_running env info.pid = false) :
    ensure_server_running env st =
      ((spawnGate env { st with probeCount := st.probeCount + 1 }).1,
        Effect.probe false :: Effect.removeFile (dir ++ "/server.pid") ::
          (spawnGate env { st with probeCount := st.probeCount + 1 }).2) := by
  simp [ensure_server_running, h0, hL, hd, hp]

theorem ensure_eq_live_found (env : Env) (st : St) (info : PidInfo)
    (h0 : is_server_reachable env st.probeCount = false)
    (hL : load_pid_info env = some info)
    (hp : is_pid_running env info.pid = true)
    (hw : (waitLoop env 10 { st with probeCount := st.probeCount + 1 }).1 = true) :
    ensure_server_running env st =
      ((waitLoop env 10 { st with probeCount := st.probeCount + 1 }).2.1,
        Effect.probe false ::
          (waitLoop env 10 { st with probeCount := st.probeCount + 1 }).2.2) := by
  simp [ensure_server_running, h0, hL, hp, hw]

theorem ensure_eq_live_notfound (env : Env) (st : St) (info : PidInfo)
    (h0 : is_server_reachable env st.probeCount = false)
    (hL : load_pid_info env = some info)
    (hp : is_pid_running env info.pid = true)
    (hw : (waitLoop env 10 { st with probeCount := st.probeCount + 1 }).1 = false) :
    ensure_server_running env st =
      ((spawnGate env
          (waitLoop env 10 { st with probeCount := st.probeCount + 1 }).2.1).1,
        Effect.probe false ::
          ((waitLoop env 10 { st with probeCount := st.probeCount + 1 }).2.2 ++
            (spawnGate env
              (waitLoop env 10 { st with probeCount := st.probeCount + 1 }).2.1).2)) := by
  simp [ensure_server_running, h0, hL, hp, hw]

/-- Every pass that starts with a failed probe either returns from inside the
mid-startup wait (left: no gate, no spawn, flag untouched) or runs the spawn
gate after a benign prefix of sleeps, failed probes and a stale-file removal
(right). -/
theorem ensure_shape (env : Env) (st : St)
    (h0 : is_server_reachable env st.probeCount = false) :
    ((ensure_server_running env st).1.spawnAttempted = st.spawnAttempted ∧
      ((ensure_server_running env st).2).any isGateEff = false ∧
      countSpawn (ensure_server_running env st).2 = 0 ∧
      ∃ wtr, (ensure_server_running env st).2 = Effect.probe false :: wtr ∧
        (∀ e ∈ wtr, e = Effect.sleepMs 500 ∨ e = Effect.probe true ∨
          e = Effect.probe false) ∧
        wtr.countP isProbeEff ≤ 10 ∧ wtr.countP isSleepEff ≤ 10)
    ∨ (∃ pre stG,
        stG.spawnAttempted = st.spawnAttempted ∧
        ensure_server_running env st =
          ((spawnGate env stG).1,
            Effect.probe false :: (pre ++ (spawnGate env stG).2)) ∧
        (∀ e ∈ pre, e = Effect.sleepMs 500 ∨ e = Effect.probe false ∨
          ∃ p, e = Effect.removeFile p) ∧
        pre.countP isProbeEff ≤ 10 ∧ pre.countP isSleepEff ≤ 10) := by
  rcases hL : load_pid_info env with _ | info
  · refine Or.inr ⟨[], { st with probeCount := st.probeCount + 1 }, rfl, ?_, by simp,
      by simp, by simp⟩
    rw [ensure_eq_noinfo env st h0 hL]
    simp
  · cases hp : is_pid_running env info.pid with
    | false =>
      obtain ⟨dir, hd⟩ := hexdeck_dir_of_load env info hL
      refine Or.inr ⟨[Effect.removeFile (dir ++ "/server.pid")],
        { st with probeCount := st.probeCount + 1 }, rfl, ?_, ?_, by simp [isProbeEff],
        by simp [isSleepEff]⟩
      · rw [ensure_eq_dead env st info dir h0 hL hd hp]
        simp
      · intro e he
        simp at he
        exact Or.inr (Or.inr ⟨_, he⟩)
    | true =>
      cases hw : (waitLoop env 10 { st with probeCount := st.probeCount + 1 }).1 with
      | true =>
        left
        rw [ensure_eq_live_found env st info h0 hL hp hw]
        refine ⟨?_, ?_, ?_, ?_⟩
        · rw [waitLoop_spawnAttempted]
        · rw [List.any_cons]
          rw [show isGateEff (Effect.probe false) = false from rfl]
          rw [Bool.false_or, List.any_eq_false]
          intro e he
          simp [waitLoop_no_gate env 10 _ e he]
        · rw [countSpawn, List.countP_cons,
            show (if isSpawnOpEff (Effect.probe false) = true then 1 else 0) = 0
              from rfl]
          have := waitLoop_countSpawn env 10 ({ st with probeCount := st.probeCount + 1 })
          rw [countSpawn] at this
          omega
        · exact ⟨_, rfl, waitLoop_mem env 10 _, waitLoop_probes_le env 10 _,
            waitLoop_sleeps_le env 10 _⟩
      | false =>
        right
        refine ⟨(waitLoop env 10 { st with probeCount := st.probeCount + 1 }).2.2,
          (waitLoop env 10 { st with probeCount := st.probeCount + 1 }).2.1,
          by rw [waitLoop_spawnAttempted],
          by rw [ensure_eq_live_notfound env st info h0 hL hp hw], ?_,
          waitLoop_probes_le env 10 _, waitLoop_sleeps_le env 10 _⟩
        intro e he
        rcases waitLoop_mem env 10 _ e he with h | h | h
        · exact Or.inl h
        · exfalso
          have := waitLoop_notfound_no_true_probe env 10 _ hw e he
          rw [h] at this
          simp [isTrueProbe] at this
        · exact Or.inr (Or.inl h)

/-! ### Core supervisor facts -/

theorem countSpawn_benign (l : List Effect)
    (h : ∀ e ∈ l, e = Effect.sleepMs 500 ∨ e = Effect.probe false ∨
      ∃ p, e = Effect.removeFile p) :
    countSpawn l = 0 := by
  rw [countSpawn, List.countP_eq_zero]
  intro e he
  rcases h e he with h1 | h1 | ⟨p, h1⟩ <;> simp [h1, isSpawnOpEff]

theorem benign_no_gate (l : List Effect)
    (h : ∀ e ∈ l, e = Effect.sleepMs 500 ∨ e = Effect.probe false ∨
      ∃ p, e = Effect.removeFile p) :
    ∀ e ∈ l, isGateEff e = false := by
  intro e he
  rcases h e he with h1 | h1 | ⟨p, h1⟩ <;> simp [h1, isGateEff]

/-- A pass whose first probe succeeds never reaches the gate. -/
theorem gate_not_reachable (env : Env) (st : St)
    (hg : reachesGate env st = true) :
    is_server_reachable env st.probeCount = false := by
  cases h0 : is_server_reachable env st.probeCount with
  | false => rfl
  | true =>
    exfalso
    unfold reachesGate at hg
    rw [ensure_eq_reachable env st h0] at hg
    simp [isGateEff] at hg

/-- A pass that reaches the gate decomposes as a benign prefix followed by
the spawn gate, which sees the caller's flag value. -/
theorem ensure_gate_shape (env : Env) (st : St)
    (hg : reachesGate env st = true) :
    ∃ pre stG, stG.spawnAttempted = st.spawnAttempted ∧
      ensure_server_running env st =
        ((spawnGate env stG).1,
          Effect.probe false :: (pre ++ (spawnGate env stG).2)) ∧
      (∀ e ∈ pre, e = Effect.sleepMs 500 ∨ e = Effect.probe false ∨
        ∃ p, e = Effect.removeFile p) := by
  have h0 := gate_not_reachable env st hg
  rcases ensure_shape env st h0 with ⟨_, hnog, _, _⟩ | ⟨pre, stG, h1, h2, h3, _, _⟩
  · exfalso
    unfold reachesGate at hg
    rw [hg] at hnog
    simp at hnog
  · exact ⟨pre, stG, h1, h2, h3⟩

/-- At most one spawn invocation per pass, unconditionally. -/
theorem ensure_countSpawn_le_one (env : Env) (st : St) :
    countSpawn (ensure_server_running env st).2 ≤ 1 := by
  cases h0 : is_server_reachable env st.probeCount with
  | true =>
    rw [ensure_eq_reachable env st h0]
    simp [countSpawn, isSpawnOpEff]
  | false =>
    rcases ensure_shape env st h0 with ⟨_, _, hc, _⟩ | ⟨pre, stG, _, h2, h3, _, _⟩
    · omega
    · rw [h2]
      rw [countSpawn, List.countP_cons, List.countP_append,
        show (if isSpawnOpEff (Effect.probe false) = true then 1 else 0) = 0
          from rfl]
      have hpre := countSpawn_benign pre h3
      have hgate := spawnGate_countSpawn_le env stG
      rw [countSpawn] at hpre hgate
      omega

/-- A pass entered with the flag already set never invokes the spawn
operation (the gate, if reached, returns immediately). -/
theorem ensure_flagged_no_spawn (env : Env) (st : St)
    (h : st.spawnAttempted = true) :
    countSpawn (ensure_server_running env st).2 = 0 := by
  cases h0 : is_server_reachable env st.probeCount with
  | true =>
    rw [ensure_eq_reachable env st h0]
    simp [countSpawn, isSpawnOpEff]
  | false =>
    rcases ensure_shape env st h0 with ⟨_, _, hc, _⟩ | ⟨pre, stG, h1, h2, h3, _, _⟩
    · exact hc
    · rw [h2]
      rw [countSpawn, List.countP_cons, List.countP_append,
        show (if isSpawnOpEff (Effect.probe false) = true then 1 else 0) = 0
          from rfl]
      have hpre := countSpawn_benign pre h3
      have hgate := spawnGate_countSpawn_flagged env stG (by rw [h1, h])
      rw [countSpawn] at hpre hgate
      omega

/-- If the pass reaches the gate and no probe after the gate succeeds, the
pass ends with the flag set. -/
theorem ensure_gate_flag_sticky (env : Env) (st : St)
    (hg : reachesGate env st = true)
    (hno : ((postGate (ensure_server_running env st).2).any isTrueProbe) = false) :
    (ensure_server_running env st).1.spawnAttempted = true := by
  obtain ⟨pre, stG, h1, h2, h3⟩ := ensure_gate_shape env st hg
  obtain ⟨rest, hrest⟩ := spawnGate_trace_head env stG
  rw [h2] at hno ⊢
  rw [hrest] at hno
  rw [postGate_probe_pre pre rest _ (benign_no_gate pre h3)] at hno
  apply spawnGate_flag_after env stG
  rw [hrest, List.any_cons, hno]
  simp [isTrueProbe]

/-- Everything the spawn gate can put in its trace. -/
theorem spawnGate_mem (env : Env) (st : St) :
    ∀ e ∈ (spawnGate env st).2,
      (∃ b, e = Effect.gateSwap b) ∨ e = Effect.spawnOp ∨
      (∃ b, e = Effect.setPermissions b) ∨ (∃ b, e = Effect.spawnExec b) ∨
      e = Effect.sleepMs 500 ∨ (∃ b, e = Effect.probe b) ∨
      (∃ m, e = Effect.logErr m) := by
  intro e he
  cases hf : st.spawnAttempted with
  | true =>
    rw [spawnGate_flagged env st hf] at he
    simp at he
    exact Or.inl ⟨_, he⟩
  | false =>
    rcases hs : (spawn_server env).1 with er | u
    · rw [spawnGate_err env st er hf hs] at he
      simp at he
      rcases he with h | h | h | h
      · exact Or.inl ⟨_, h⟩
      · exact Or.inr (Or.inl h)
      · rcases spawn_server_effs env e h with ⟨b, h1 | h1⟩
        · exact Or.inr (Or.inr (Or.inl ⟨_, h1⟩))
        · exact Or.inr (Or.inr (Or.inr (Or.inl ⟨_, h1⟩)))
      · exact Or.inr (Or.inr (Or.inr (Or.inr (Or.inr (Or.inr ⟨_, h⟩)))))
    · cases u
      cases hw : (waitLoop env 10 { st with spawnAttempted := true }).1 with
      | true =>
        rw [spawnGate_ok_found env st hf hs hw] at he
        simp at he
        rcases he with h | h | h | h
        · exact Or.inl ⟨_, h⟩
        · exact Or.inr (Or.inl h)
        · rcases spawn_server_effs env e h with ⟨b, h1 | h1⟩
          · exact Or.inr (Or.inr (Or.inl ⟨_, h1⟩))
          · exact Or.inr (Or.inr (Or.inr (Or.inl ⟨_, h1⟩)))
        · rcases waitLoop_mem env 10 _ e h with h1 | h1 | h1
          · exact Or.inr (Or.inr (Or.inr (Or.inr (Or.inl h1))))
          · exact Or.inr (Or.inr (Or.inr (Or.inr (Or.inr (Or.inl ⟨_, h1⟩)))))
          · exact Or.inr (Or.inr (Or.inr (Or.inr (Or.inr (Or.inl ⟨_, h1⟩)))))
      | false =>
        rw [spawnGate_ok_notfound env st hf hs hw] at he
        simp at he
        rcases he with h | h | h | h | h
        · exact Or.inl ⟨_, h⟩
        · exact Or.inr (Or.inl h)
        · rcases spawn_server_effs env e h with ⟨b, h1 | h1⟩
          · exact Or.inr (Or.inr (Or.inl ⟨_, h1⟩))
          · exact Or.inr (Or.inr (Or.inr (Or.inl ⟨_, h1⟩)))
        · rcases waitLoop_mem env 10 _ e h with h1 | h1 | h1
          · exact Or.inr (Or.inr (Or.inr (Or.inr (Or.inl h1))))
          · exact Or.inr (Or.inr (Or.inr (Or.inr (Or.inr (Or.inl ⟨_, h1⟩)))))
          · exact Or.inr (Or.inr (Or.inr (Or.inr (Or.inr (Or.inl ⟨_, h1⟩)))))
        · exact Or.inr (Or.inr (Or.inr (Or.inr (Or.inr (Or.inr ⟨_, h⟩)))))

theorem spawnGate_no_remove (env : Env) (st : St) :
    ((spawnGate env st).2).countP isRemoveEff = 0 := by
  rw [List.countP_eq_zero]
  intro e he
  rcases spawnGate_mem env st e he with
    ⟨b, h⟩ | h | ⟨b, h⟩ | ⟨b, h⟩ | h | ⟨b, h⟩ | ⟨m, h⟩ <;> simp [h, isRemoveEff]

theorem spawnGate_sleep_500 (env : Env) (st : St) :
    ∀ e ∈ (spawnGate env st).2, isSleepEff e = true → e = Effect.sleepMs 500 := by
  intro e he hs
  rcases spawnGate_mem env st e he with
    ⟨b, h⟩ | h | ⟨b, h⟩ | ⟨b, h⟩ | h | ⟨b, h⟩ | ⟨m, h⟩ <;>
    first
      | exact h
      | (rw [h] at hs; simp [isSleepEff] at hs)

theorem spawn_server_countP_probe (env : Env) :
    ((spawn_server env).2).countP isProbeEff = 0 := by
  rw [List.countP_eq_zero]
  intro e he
  rcases spawn_server_effs env e he with ⟨b, h | h⟩ <;> simp [h, isProbeEff]

theorem spawn_server_countP_sleep (env : Env) :
    ((spawn_server env).2).countP isSleepEff = 0 := by
  rw [List.countP_eq_zero]
  intro e he
  rcases spawn_server_effs env e he with ⟨b, h | h⟩ <;> simp [h, isSleepEff]

theorem spawnGate_probes_le (env : Env) (st : St) :
    ((spawnGate env st).2).countP isProbeEff ≤ 10 := by
  cases hf : st.spawnAttempted with
  | true =>
    rw [spawnGate_flagged env st hf]
    rw [show List.countP isProbeEff [Effect.gateSwap true] = 0 from rfl]
    omega
  | false =>
    rcases hs : (spawn_server env).1 with er | u
    · rw [spawnGate_err env st er hf hs]
      rw [List.countP_cons, List.countP_cons, List.countP_append,
        spawn_server_countP_probe env,
        show List.countP isProbeEff [Effect.logErr ("hexdeck: " ++ er)] = 0
          from rfl,
        show (if isProbeEff Effect.spawnOp = true then 1 else 0) = 0 from rfl,
        show (if isProbeEff (Effect.gateSwap false) = true then 1 else 0) = 0
          from rfl]
      omega
    · cases u
      cases hw : (waitLoop env 10 { st with spawnAttempted := true }).1 with
      | true =>
        rw [spawnGate_ok_found env st hf hs hw]
        rw [List.countP_cons, List.countP_cons, List.countP_append,
          spawn_server_countP_probe env,
          show (if isProbeEff Effect.spawnOp = true then 1 else 0) = 0 from rfl,
          show (if isProbeEff (Effect.gateSwap false) = true then 1 else 0) = 0
            from rfl]
        have := waitLoop_probes_le env 10 ({ st with spawnAttempted := true })
        omega
      | false =>
        rw [spawnGate_ok_notfound env st hf hs hw]
        rw [List.countP_cons, List.countP_cons, List.countP_append,
          List.countP_append, spawn_server_countP_probe env,
          show List.countP isProbeEff
            [Effect.logErr "hexdeck: server spawned but not reachable after 5s"]
            = 0 from rfl,
          show (if isProbeEff Effect.spawnOp = true then 1 else 0) = 0 from rfl,
          show (if isProbeEff (Effect.gateSwap false) = true then 1 else 0) = 0
            from rfl]
        have := waitLoop_probes_le env 10 ({ st with spawnAttempted := true })
        omega

theorem spawnGate_sleeps_le (env : Env) (st : St) :
    ((spawnGate env st).2).countP isSleepEff ≤ 10 := by
  cases hf : st.spawnAttempted with
  | true =>
    rw [spawnGate_flagged env st hf]
    rw [show List.countP isSleepEff [Effect.gateSwap true] = 0 from rfl]
    omega
  | false =>
    rcases hs : (spawn_server env).1 with er | u
    · rw [spawnGate_err env st er hf hs]
      rw [List.countP_cons, List.countP_cons, List.countP_append,
        spawn_server_countP_sleep env,
        show List.countP isSleepEff [Effect.logErr ("hexdeck: " ++ er)] = 0
          from rfl,
        show (if isSleepEff Effect.spawnOp = true then 1 else 0) = 0 from rfl,
        show (if isSleepEff (Effect.gateSwap false) = true then 1 else 0) = 0
          from rfl]
      omega
    · cases u
      cases hw : (waitLoop env 10 { st with spawnAttempted := true }).1 with
      | true =>
        rw [spawnGate_ok_found env st hf hs hw]
        rw [List.countP_cons, List.countP_cons, List.countP_append,
          spawn_server_countP_sleep env,
          show (if isSleepEff Effect.spawnOp = true then 1 else 0) = 0 from rfl,
          show (if isSleepEff (Effect.gateSwap false) = true then 1 else 0) = 0
            from rfl]
        have := waitLoop_sleeps_le env 10 ({ st with spawnAttempted := true })
        omega
      | false =>
        rw [spawnGate_ok_notfound env st hf hs hw]
        rw [List.countP_cons, List.countP_cons, List.countP_append,
          List.countP_append, spawn_server_countP_sleep env,
          show List.countP isSleepEff
            [Effect.logErr "hexdeck: server spawned but not reachable after 5s"]
            = 0 from rfl,
          show (if isSleepEff Effect.spawnOp = true then 1 else 0) = 0 from rfl,
          show (if isSleepEff (Effect.gateSwap false) = true then 1 else 0) = 0
            from rfl]
        have := waitLoop_sleeps_le env 10 ({ st with spawnAttempted := true })
        omega

/-! ### The claims -/

/-- Claim C1: the spawn gate test-and-sets `SPAWN_ATTEMPTED`; a call that
reaches the gate with the flag already true returns without invoking the
spawn operation, and two successive calls that both reach the gate, with no
successful reachability observation intervening after the first gate,
perform at most one spawn invocation in total. -/
theorem claim_c1_gate_dedup (env : Env) (st0 : St)
    (hg1 : reachesGate env st0 = true)
    (_hg2 : reachesGate env (ensure_server_running env st0).1 = true)
    (hno : ((postGate (ensure_server_running env st0).2).any isTrueProbe) = false) :
    countSpawn ((ensure_server_running env st0).2 ++
        (ensure_server_running env (ensure_server_running env st0).1).2) ≤ 1 ∧
      (st0.spawnAttempted = true →
        countSpawn (ensure_server_running env st0).2 = 0) := by
  constructor
  · rw [countSpawn, List.countP_append]
    have h1 := ensure_countSpawn_le_one env st0
    have hflag := ensure_gate_flag_sticky env st0 hg1 hno
    have h2 := ensure_flagged_no_spawn env (ensure_server_running env st0).1 hflag
    rw [countSpawn] at h1 h2
    omega
  · intro h
    exact ensure_flagged_no_spawn env st0 h

/-- Claim C2: when the initial reachability probe succeeds, the pass resets
`SPAWN_ATTEMPTED` to false and returns immediately: its trace is the single
successful probe, so it performs no filesystem write, no spawn invocation
and no process exec; the only other state change is the probe counter. -/
theorem claim_c2_fast_path (env : Env) (st : St)
    (h : is_server_reachable env st.probeCount = true) :
    (ensure_server_running env st).1.spawnAttempted = false ∧
      (ensure_server_running env st).2 = [Effect.probe true] ∧
      ((ensure_server_running env st).2).countP isWriteEff = 0 ∧
      countSpawn (ensure_server_running env st).2 = 0 ∧
      ((ensure_server_running env st).2).countP isExecEff = 0 ∧
      (ensure_server_running env st).1.probeCount = st.probeCount + 1 := by
  rw [ensure_eq_reachable env st h]
  exact ⟨rfl, rfl, rfl, rfl, rfl, rfl⟩

/-- Claim C3: a pass that invokes the spawn operation and has it fail
(missing binary, unresolvable resource dir, or exec failure) reports the
error to stderr, returns with the flag still true, and any pass started in
the resulting state performs no spawn invocation. -/
theorem claim_c3_spawn_failure (env : Env) (st : St) (e : String)
    (hg : reachesGate env st = true)
    (hf : st.spawnAttempted = false)
    (he : (spawn_server env).1 = Except.error e) :
    Effect.logErr ("hexdeck: " ++ e) ∈ (ensure_server_running env st).2 ∧
      countSpawn (ensure_server_running env st).2 = 1 ∧
      (ensure_server_running env st).1.spawnAttempted = true ∧
      ∀ env2 : Env,
        countSpawn (ensure_server_running env2 (ensure_server_running env st).1).2
          = 0 := by
  obtain ⟨pre, stG, h1, h2, h3⟩ := ensure_gate_shape env st hg
  have hfG : stG.spawnAttempted = false := by rw [h1, hf]
  have hgate := spawnGate_err env stG e hfG he
  refine ⟨?_, ?_, ?_, ?_⟩
  · rw [h2, hgate]
    simp
  · rw [h2, hgate]
    rw [countSpawn, List.countP_cons, List.countP_append, List.countP_cons,
      List.countP_cons, List.countP_append]
    have hpre := countSpawn_benign pre h3
    have heffs := spawn_server_countSpawn env
    rw [countSpawn] at hpre heffs
    rw [hpre, heffs,
      show List.countP isSpawnOpEff [Effect.logErr ("hexdeck: " ++ e)] = 0 from rfl,
      show (if isSpawnOpEff Effect.spawnOp = true then 1 else 0) = 1 from rfl,
      show (if isSpawnOpEff (Effect.gateSwap false) = true then 1 else 0) = 0
        from rfl,
      show (if isSpawnOpEff (Effect.probe false) = true then 1 else 0) = 0
        from rfl]
  · rw [h2, hgate]
  · intro env2
    apply ensure_flagged_no_spawn
    rw [h2, hgate]

theorem getLast?_cons_of_some (a : Effect) (l : List Effect) (x : Effect)
    (h : l.getLast? = some x) : (a :: l).getLast? = some x := by
  cases l with
  | nil => simp at h
  | cons b l => rw [List.getLast?_cons_cons]; exact h

theorem getLast?_append_of_some (l₁ l₂ : List Effect) (x : Effect)
    (h : l₂.getLast? = some x) : (l₁ ++ l₂).getLast? = some x := by
  rw [List.getLast?_append, h, Option.or_some]

/-- Claim C4: when the spawn operation succeeds, the post-spawn polling loop
resets the flag to false and the pass ends at the first successful probe; if
every probe in the budget fails, the pass leaves the flag true and its last
action is the "spawned but not reachable" diagnostic. -/
theorem claim_c4_post_spawn (env : Env) (st : St)
    (hg : reachesGate env st = true)
    (hf : st.spawnAttempted = false)
    (hs : (spawn_server env).1 = Except.ok ()) :
    (((postGate (ensure_server_running env st).2).any isTrueProbe) = true →
      (ensure_server_running env st).1.spawnAttempted = false ∧
        ((ensure_server_running env st).2).getLast? = some (Effect.probe true)) ∧
    (((postGate (ensure_server_running env st).2).any isTrueProbe) = false →
      (ensure_server_running env st).1.spawnAttempted = true ∧
        ((ensure_server_running env st).2).getLast? =
          some (Effect.logErr
            "hexdeck: server spawned but not reachable after 5s")) := by
  obtain ⟨pre, stG, h1, h2, h3⟩ := ensure_gate_shape env st hg
  have hfG : stG.spawnAttempted = false := by rw [h1, hf]
  cases hw : (waitLoop env 10 { stG with spawnAttempted := true }).1 with
  | true =>
    have hgate := spawnGate_ok_found env stG hfG hs hw
    have hwl : ((waitLoop env 10 { stG with spawnAttempted := true }).2.2).any
        isTrueProbe = true := by
      rw [← waitLoop_found_eq_any]; exact hw
    have hpg : (postGate (ensure_server_running env st).2).any isTrueProbe
        = true := by
      rw [h2, hgate, postGate_probe_pre pre _ _ (benign_no_gate pre h3)]
      simp [List.any_cons, List.any_append, hwl]
    constructor
    · intro _
      constructor
      · rw [h2, hgate]
      · rw [h2, hgate]
        exact getLast?_cons_of_some _ _ _
          (getLast?_append_of_some _ _ _
            (getLast?_cons_of_some _ _ _
              (getLast?_cons_of_some _ _ _
                (getLast?_append_of_some _ _ _
                  (waitLoop_getLast env 10 _ hw)))))
    · intro hno
      rw [hpg] at hno
      simp at hno
  | false =>
    have hgate := spawnGate_ok_notfound env stG hfG hs hw
    have hwl : ((waitLoop env 10 { stG with spawnAttempted := true }).2.2).any
        isTrueProbe = false := by
      rw [← waitLoop_found_eq_any]; exact hw
    have heffs : ((spawn_server env).2).any isTrueProbe = false :=
      List.any_eq_false.mpr (fun e he => by simp [spawn_server_no_probe env e he])
    have hpg : (postGate (ensure_server_running env st).2).any isTrueProbe
        = false := by
      rw [h2, hgate, postGate_probe_pre pre _ _ (benign_no_gate pre h3)]
      simp [List.any_cons, List.any_append, hwl, heffs, isTrueProbe]
    constructor
    · intro hyes
      rw [hpg] at hyes
      simp at hyes
    · intro _
      constructor
      · rw [h2, hgate, waitLoop_spawnAttempted]
      · rw [h2, hgate]
        exact getLast?_cons_of_some _ _ _
          (getLast?_append_of_some _ _ _
            (getLast?_cons_of_some _ _ _
              (getLast?_cons_of_some _ _ _
                (getLast?_append_of_some _ _ _ rfl))))

/-- Claim C5 fails on the code: with the endpoint unreachable and a PID
file that exists but does not parse, no usable record is obtained, yet
nothing is deleted and the spawn gate is still evaluated. -/
theorem claim_c5_counterexample :
    envBadPidFile.pidFileRead = some "not json" ∧
      load_pid_info envBadPidFile = none ∧
      ((ensure_server_running envBadPidFile
        { spawnAttempted := false, probeCount := 0 }).2).any isGateEff = true ∧
      ((ensure_server_running envBadPidFile
        { spawnAttempted := false, probeCount := 0 }).2).countP isRemoveEff
        = 0 :=
  ⟨rfl, rfl, by decide, by decide⟩

/-- Claim C5 (amended): with the endpoint unreachable, a record that parses
and names a dead pid has its file deleted immediately before the spawn gate;
when no usable record is obtained (missing, unreadable or unparseable file,
or no home directory) nothing is deleted and control falls directly to the
spawn gate. -/
theorem claim_c5_amended (env : Env) (st : St)
    (h0 : is_server_reachable env st.probeCount = false) :
    (∀ info dir, load_pid_info env = some info → hexdeck_dir env = some dir →
      is_pid_running env info.pid = false →
      (ensure_server_running env st).2 =
        Effect.probe false :: Effect.removeFile (dir ++ "/server.pid") ::
          (spawnGate env { st with probeCount := st.probeCount + 1 }).2) ∧
    (load_pid_info env = none →
      ((ensure_server_running env st).2).countP isRemoveEff = 0 ∧
      (ensure_server_running env st).2 =
        Effect.probe false ::
          (spawnGate env { st with probeCount := st.probeCount + 1 }).2) := by
  constructor
  · intro info dir hL hd hp
    rw [ensure_eq_dead env st info dir h0 hL hd hp]
  · intro hL
    rw [ensure_eq_noinfo env st h0 hL]
    refine ⟨?_, rfl⟩
    rw [List.countP_cons,
      show (if isRemoveEff (Effect.probe false) = true then 1 else 0) = 0
        from rfl,
      spawnGate_no_remove env _]

/-- Claim C6: endpoint unreachable but the PID record names a live process:
the pass polls up to 10 times at a fixed 500 ms sleep, returns at the first
successful probe with no gate evaluation and no spawn invocation, and only
if all attempts fail does control fall through to the spawn gate. -/
theorem claim_c6_live_pid_wait (env : Env) (st : St) (info : PidInfo)
    (h0 : is_server_reachable env st.probeCount = false)
    (hL : load_pid_info env = some info)
    (hp : is_pid_running env info.pid = true) :
    ((waitLoop env 10 { st with probeCount := st.probeCount + 1 }).1 = true →
      (ensure_server_running env st).2 =
        Effect.probe false ::
          (waitLoop env 10 { st with probeCount := st.probeCount + 1 }).2.2 ∧
        countSpawn (ensure_server_running env st).2 = 0 ∧
        ((ensure_server_running env st).2).any isGateEff = false ∧
        ((ensure_server_running env st).2).getLast? = some (Effect.probe true)) ∧
    ((waitLoop env 10 { st with probeCount := st.probeCount + 1 }).1 = false →
      ((ensure_server_running env st).2).any isGateEff = true) ∧
    ((waitLoop env 10 { st with probeCount := st.probeCount + 1 }).2.2).countP
      isProbeEff ≤ 10 ∧
    ∀ e ∈ (waitLoop env 10 { st with probeCount := st.probeCount + 1 }).2.2,
      isSleepEff e = true → e = Effect.sleepMs 500 := by
  refine ⟨?_, ?_, waitLoop_probes_le env 10 _, ?_⟩
  · intro hw
    rw [ensure_eq_live_found env st info h0 hL hp hw]
    refine ⟨rfl, ?_, ?_, ?_⟩
    · rw [countSpawn, List.countP_cons,
        show (if isSpawnOpEff (Effect.probe false) = true then 1 else 0) = 0
          from rfl]
      have := waitLoop_countSpawn env 10 ({ st with probeCount := st.probeCount + 1 })
      rw [countSpawn] at this
      omega
    · rw [List.any_cons,
        show isGateEff (Effect.probe false) = false from rfl, Bool.false_or,
        List.any_eq_false]
      intro e he
      simp [waitLoop_no_gate env 10 _ e he]
    · exact getLast?_cons_of_some _ _ _ (waitLoop_getLast env 10 _ hw)
  · intro hw
    rw [ensure_eq_live_notfound env st info h0 hL hp hw]
    obtain ⟨rest, hrest⟩ := spawnGate_trace_head env _
    rw [List.any_cons, List.any_append, hrest, List.any_cons]
    simp [isGateEff]
  · intro e he hs
    rcases waitLoop_mem env 10 _ e he with h | h | h
    · exact h
    · rw [h] at hs; simp [isSleepEff] at hs
    · rw [h] at hs; simp [isSleepEff] at hs

/-- Claim C7 fails on the code: when the home (config) directory cannot be
determined, the pass neither aborts nor reports; it proceeds to the spawn
gate and invokes the spawn operation. -/
theorem claim_c7_counterexample :
    envNoHomeSpawn.homeDir = none ∧
      countSpawn (ensure_server_running envNoHomeSpawn
        { spawnAttempted := false, probeCount := 0 }).2 = 1 ∧
      ((ensure_server_running envNoHomeSpawn
        { spawnAttempted := false, probeCount := 0 }).2).any isGateEff = true ∧
      ((ensure_server_running envNoHomeSpawn
        { spawnAttempted := false, probeCount := 0 }).2).any isExecEff = true :=
  ⟨rfl, by decide, by decide, by decide⟩

/-- Claim C7 (amended): an undeterminable config directory merely makes the
PID-record step yield no record, and control falls directly to the spawn
gate; only an unresolvable resource directory aborts the pass, with a
stderr report, the flag left set, and no process exec. -/
theorem claim_c7_amended (env : Env) (st : St)
    (hh : env.homeDir = none)
    (hr : is_server_reachable env st.probeCount = false) :
    load_pid_info env = none ∧
    (ensure_server_running env st).2 =
      Effect.probe false ::
        (spawnGate env { st with probeCount := st.probeCount + 1 }).2 ∧
    (env.resourceDirOpt = none → st.spawnAttempted = false →
      (ensure_server_running env st).2 =
        [Effect.probe false, Effect.gateSwap false, Effect.spawnOp,
          Effect.logErr "hexdeck: Cannot resolve resource dir"] ∧
      (ensure_server_running env st).1.spawnAttempted = true ∧
      ((ensure_server_running env st).2).countP isExecEff = 0) := by
  have hL : load_pid_info env = none := by
    unfold load_pid_info hexdeck_dir
    rw [hh]
    rfl
  refine ⟨hL, by rw [ensure_eq_noinfo env st hr hL], ?_⟩
  intro hrd hf
  have he : (spawn_server env).1 = Except.error "Cannot resolve resource dir" := by
    unfold spawn_server
    rw [hrd]
  have heffs : (spawn_server env).2 = [] := by
    unfold spawn_server
    rw [hrd]
  have hfG : ({ st with probeCount := st.probeCount + 1 } : St).spawnAttempted
      = false := hf
  have hgate := spawnGate_err env { st with probeCount := st.probeCount + 1 }
    "Cannot resolve resource dir" hfG he
  rw [ensure_eq_noinfo env st hr hL, hgate, heffs]
  exact ⟨rfl, rfl, rfl⟩

/-- Claim C8: each polling loop performs at most 10 probes and 10 sleeps,
and a whole pass performs at most 21 probes and 20 sleeps, every sleep
being exactly 500 ms, so the wait within one call is bounded. -/
theorem claim_c8_bounded_polling (env : Env) (st : St) :
    (∀ s : St, ((waitLoop env 10 s).2.2).countP isProbeEff ≤ 10 ∧
      ((waitLoop env 10 s).2.2).countP isSleepEff ≤ 10) ∧
    ((ensure_server_running env st).2).countP isProbeEff ≤ 21 ∧
    ((ensure_server_running env st).2).countP isSleepEff ≤ 20 ∧
    ∀ e ∈ (ensure_server_running env st).2, isSleepEff e = true →
      e = Effect.sleepMs 500 := by
  have key : ((ensure_server_running env st).2).countP isProbeEff ≤ 21 ∧
      ((ensure_server_running env st).2).countP isSleepEff ≤ 20 ∧
      ∀ e ∈ (ensure_server_running env st).2, isSleepEff e = true →
        e = Effect.sleepMs 500 := by
    cases h0 : is_server_reachable env st.probeCount with
    | true =>
      rw [ensure_eq_reachable env st h0]
      refine ⟨?_, ?_, ?_⟩
      · rw [show List.countP isProbeEff [Effect.probe true] = 1 from rfl]
        omega
      · rw [show List.countP isSleepEff [Effect.probe true] = 0 from rfl]
        omega
      · intro e he hs
        simp at he
        rw [he] at hs
        simp [isSleepEff] at hs
    | false =>
      rcases ensure_shape env st h0 with
        ⟨_, _, _, wtr, htr, hmem, hprobe, hsleep⟩ |
        ⟨pre, stG, h1, h2, h3, hprobe, hsleep⟩
      · rw [htr]
        refine ⟨?_, ?_, ?_⟩
        · rw [List.countP_cons,
            show (if isProbeEff (Effect.probe false) = true then 1 else 0) = 1
              from rfl]
          omega
        · rw [List.countP_cons,
            show (if isSleepEff (Effect.probe false) = true then 1 else 0) = 0
              from rfl]
          omega
        · intro e he hs
          rcases List.mem_cons.mp he with h | h
          · rw [h] at hs; simp [isSleepEff] at hs
          · rcases hmem e h with h1 | h1 | h1
            · exact h1
            · rw [h1] at hs; simp [isSleepEff] at hs
            · rw [h1] at hs; simp [isSleepEff] at hs
      · rw [h2]
        refine ⟨?_, ?_, ?_⟩
        · rw [List.countP_cons, List.countP_append,
            show (if isProbeEff (Effect.probe false) = true then 1 else 0) = 1
              from rfl]
          have := spawnGate_probes_le env stG
          omega
        · rw [List.countP_cons, List.countP_append,
            show (if isSleepEff (Effect.probe false) = true then 1 else 0) = 0
              from rfl]
          have := spawnGate_sleeps_le env stG
          omega
        · intro e he hs
          rcases List.mem_cons.mp he with h | h
          · rw [h] at hs; simp [isSleepEff] at hs
          · rcases List.mem_append.mp h with h | h
            · rcases h3 e h with h1 | h1 | ⟨p, h1⟩
              · exact h1
              · rw [h1] at hs; simp [isSleepEff] at hs
              · rw [h1] at hs; simp [isSleepEff] at hs
            · exact spawnGate_sleep_500 env stG e h hs
  exact ⟨fun s => ⟨waitLoop_probes_le env 10 s, waitLoop_sleeps_le env 10 s⟩,
    key.1, key.2.1, key.2.2⟩

/-- Claim C9: a pass that returns from inside the mid-startup wait (live
recorded pid, port initially unreachable, a wait probe succeeded) leaves
`SPAWN_ATTEMPTED` exactly as it found it — in particular a flag left true
by an earlier failed episode is not reset, although reachability was
observed. -/
theorem claim_c9_midstartup_keeps_flag (env : Env) (st : St) (info : PidInfo)
    (h0 : is_server_reachable env st.probeCount = false)
    (hL : load_pid_info env = some info)
    (hp : is_pid_running env info.pid = true)
    (hw : (waitLoop env 10 { st with probeCount := st.probeCount + 1 }).1
      = true) :
    (ensure_server_running env st).1.spawnAttempted = st.spawnAttempted := by
  rw [ensure_eq_live_found env st info h0 hL hp hw, waitLoop_spawnAttempted]

/-- Claim C10 fails as stated on pids of 2^32 and above: pid 2^32 is at or
above 2^31, yet its low 32 bits are 0, so it is probed as 0 — neither a
negative (process-group) value nor the recorded pid. -/
theorem claim_c10_counterexample :
    2 ^ 31 ≤ (2 ^ 32 : Nat) ∧ toI32 (2 ^ 32) = 0 ∧ ¬ toI32 (2 ^ 32) < 0 ∧
      is_pid_running envKillNeg (2 ^ 32) = false :=
  ⟨by decide, by decide, by decide, by decide⟩

/-- Claim C10 (amended): the liveness probe truncates the recorded pid to
its low 32 bits, so pids congruent modulo 2^32 are judged identically; a
pid whose low 32 bits are at or above 2^31 is probed as a negative value,
and one whose low 32 bits are below 2^31 is probed as those bits. -/
theorem claim_c10_truncation (env : Env) (p q : Nat)
    (hpq : p % 2 ^ 32 = q % 2 ^ 32) :
    is_pid_running env p = is_pid_running env q ∧
      (2 ^ 31 ≤ p % 2 ^ 32 → toI32 p < 0) ∧
      (p % 2 ^ 32 < 2 ^ 31 → toI32 p = ((p % 2 ^ 32 : Nat) : Int)) := by
  refine ⟨?_, ?_, ?_⟩
  · unfold is_pid_running toI32
    rw [hpq]
  · intro h
    unfold toI32
    rw [if_neg (by omega)]
    have hlt : p % 2 ^ 32 < 2 ^ 32 := Nat.mod_lt _ (by norm_num)
    have hc : ((p % 2 ^ 32 : Nat) : Int) < 2 ^ 32 := by exact_mod_cast hlt
    omega
  · intro h
    unfold toI32
    rw [if_pos h]

/-! ### Witnesses: each hypothesis-bearing claim theorem applied to a
concrete environment -/

/-- Witness for C1: server down, binary missing, flag already true; both
passes reach the gate, no probe after the first gate succeeds, and no spawn
happens at all. -/
theorem claim_c1_gate_dedup_witness :
    reachesGate envDown { spawnAttempted := true, probeCount := 0 } = true ∧
    reachesGate envDown (ensure_server_running envDown
      { spawnAttempted := true, probeCount := 0 }).1 = true ∧
    ((postGate (ensure_server_running envDown
      { spawnAttempted := true, probeCount := 0 }).2).any isTrueProbe)
      = false ∧
    countSpawn ((ensure_server_running envDown
      { spawnAttempted := true, probeCount := 0 }).2 ++
      (ensure_server_running envDown (ensure_server_running envDown
        { spawnAttempted := true, probeCount := 0 }).1).2) ≤ 1 ∧
    countSpawn (ensure_server_running envDown
      { spawnAttempted := true, probeCount := 0 }).2 = 0 :=
  have h := claim_c1_gate_dedup envDown { spawnAttempted := true, probeCount := 0 }
    (by decide) (by decide) (by decide)
  ⟨by decide, by decide, by decide, h.1, h.2 rfl⟩

/-- Witness for C2: server reachable, flag previously true; the pass is the
single probe and resets the flag. -/
theorem claim_c2_fast_path_witness :
    is_server_reachable envUp 0 = true ∧
    (ensure_server_running envUp
      { spawnAttempted := true, probeCount := 0 }).1.spawnAttempted = false ∧
    (ensure_server_running envUp { spawnAttempted := true, probeCount := 0 }).2
      = [Effect.probe true] ∧
    ((ensure_server_running envUp
      { spawnAttempted := true, probeCount := 0 }).2).countP isWriteEff = 0 ∧
    countSpawn (ensure_server_running envUp
      { spawnAttempted := true, probeCount := 0 }).2 = 0 :=
  have h := claim_c2_fast_path envUp { spawnAttempted := true, probeCount := 0 }
    (by decide)
  ⟨by decide, h.1, h.2.1, h.2.2.1, h.2.2.2.1⟩

/-- Witness for C3: server down, binary missing; the spawn fails, the error
is logged, the flag sticks, and a second pass (even one finding the server
up) spawns nothing. -/
theorem claim_c3_spawn_failure_witness :
    reachesGate envDown { spawnAttempted := false, probeCount := 0 } = true ∧
    (spawn_server envDown).1 =
      Except.error "Server binary not found at /res/hexdeck-server" ∧
    Effect.logErr "hexdeck: Server binary not found at /res/hexdeck-server" ∈
      (ensure_server_running envDown
        { spawnAttempted := false, probeCount := 0 }).2 ∧
    countSpawn (ensure_server_running envDown
      { spawnAttempted := false, probeCount := 0 }).2 = 1 ∧
    (ensure_server_running envDown
      { spawnAttempted := false, probeCount := 0 }).1.spawnAttempted = true ∧
    countSpawn (ensure_server_running envUp
      (ensure_server_running envDown
        { spawnAttempted := false, probeCount := 0 }).1).2 = 0 :=
  have h := claim_c3_spawn_failure envDown
    { spawnAttempted := false, probeCount := 0 }
    "Server binary not found at /res/hexdeck-server" (by decide) rfl rfl
  ⟨by decide, rfl, h.1, h.2.1, h.2.2.1, h.2.2.2 envUp⟩

/-- Witness for C4: server down, binary present, spawn succeeds, and the
second post-spawn probe observes the server; the flag ends false and the
pass ends at that probe. -/
theorem claim_c4_post_spawn_witness :
    reachesGate envSpawnable { spawnAttempted := false, probeCount := 0 }
      = true ∧
    (spawn_server envSpawnable).1 = Except.ok () ∧
    ((postGate (ensure_server_running envSpawnable
      { spawnAttempted := false, probeCount := 0 }).2).any isTrueProbe)
      = true ∧
    (ensure_server_running envSpawnable
      { spawnAttempted := false, probeCount := 0 }).1.spawnAttempted = false ∧
    ((ensure_server_running envSpawnable
      { spawnAttempted := false, probeCount := 0 }).2).getLast?
      = some (Effect.probe true) :=
  have h := claim_c4_post_spawn envSpawnable
    { spawnAttempted := false, probeCount := 0 } (by decide) rfl rfl
  ⟨by decide, rfl, by decide, (h.1 (by decide)).1, (h.1 (by decide)).2⟩

/-- Witness for the amended C5: a parsed record with a dead pid has its
file removed right before the gate. -/
theorem claim_c5_amended_witness :
    is_server_reachable envDeadPid 0 = false ∧
    load_pid_info envDeadPid = some { pid := 4242, port := 7433 } ∧
    hexdeck_dir envDeadPid = some "/home/user/.hexdeck" ∧
    is_pid_running envDeadPid 4242 = false ∧
    (ensure_server_running envDeadPid
        { spawnAttempted := false, probeCount := 0 }).2 =
      Effect.probe false ::
        Effect.removeFile "/home/user/.hexdeck/server.pid" ::
        (spawnGate envDeadPid { spawnAttempted := false, probeCount := 1 }).2 :=
  have h := claim_c5_amended envDeadPid
    { spawnAttempted := false, probeCount := 0 } (by decide)
  ⟨by decide, by decide, by decide, by decide,
    h.1 { pid := 4242, port := 7433 } "/home/user/.hexdeck"
      (by decide) (by decide) (by decide)⟩

/-- Witness for C6: live recorded pid, port opens at the second wait probe:
no gate, no spawn, pass ends at the successful probe. -/
theorem claim_c6_live_pid_wait_witness :
    is_server_reachable envLivePid 0 = false ∧
    load_pid_info envLivePid = some { pid := 4242, port := 7433 } ∧
    is_pid_running envLivePid 4242 = true ∧
    (waitLoop envLivePid 10 { spawnAttempted := false, probeCount := 1 }).1
      = true ∧
    countSpawn (ensure_server_running envLivePid
      { spawnAttempted := false, probeCount := 0 }).2 = 0 ∧
    ((ensure_server_running envLivePid
      { spawnAttempted := false, probeCount := 0 }).2).any isGateEff = false ∧
    ((ensure_server_running envLivePid
      { spawnAttempted := false, probeCount := 0 }).2).getLast?
      = some (Effect.probe true) :=
  have h := claim_c6_live_pid_wait envLivePid
    { spawnAttempted := false, probeCount := 0 } { pid := 4242, port := 7433 }
    (by decide) (by decide) (by decide)
  ⟨by decide, by decide, by decide, by decide,
    (h.1 (by decide)).2.1, (h.1 (by decide)).2.2.1, (h.1 (by decide)).2.2.2⟩

/-- Witness for the amended C7: no home directory and no resource
directory: the pass still runs the gate, the spawn fails with the
resource-dir report, and no exec happens. -/
theorem claim_c7_amended_witness :
    envNoDirs.homeDir = none ∧
    is_server_reachable envNoDirs 0 = false ∧
    load_pid_info envNoDirs = none ∧
    (ensure_server_running envNoDirs
        { spawnAttempted := false, probeCount := 0 }).2 =
      [Effect.probe false, Effect.gateSwap false, Effect.spawnOp,
        Effect.logErr "hexdeck: Cannot resolve resource dir"] ∧
    (ensure_server_running envNoDirs
      { spawnAttempted := false, probeCount := 0 }).1.spawnAttempted = true :=
  have h := claim_c7_amended envNoDirs
    { spawnAttempted := false, probeCount := 0 } rfl (by decide)
  ⟨rfl, by decide, h.1, (h.2.2 rfl rfl).1, (h.2.2 rfl rfl).2.1⟩

/-- Witness for C8 at a concrete environment. -/
theorem claim_c8_bounded_polling_witness :
    ((ensure_server_running envDown
      { spawnAttempted := false, probeCount := 0 }).2).countP isProbeEff
      ≤ 21 ∧
    ((ensure_server_running envDown
      { spawnAttempted := false, probeCount := 0 }).2).countP isSleepEff
      ≤ 20 :=
  have h := claim_c8_bounded_polling envDown
    { spawnAttempted := false, probeCount := 0 }
  ⟨h.2.1, h.2.2.1⟩

/-- Witness for C9: the flag enters true, the mid-startup wait observes the
server, and the flag is still true on return. -/
theorem claim_c9_midstartup_keeps_flag_witness :
    is_server_reachable envLivePid 0 = false ∧
    load_pid_info envLivePid = some { pid := 4242, port := 7433 } ∧
    is_pid_running envLivePid 4242 = true ∧
    (waitLoop envLivePid 10 { spawnAttempted := true, probeCount := 1 }).1
      = true ∧
    (ensure_server_running envLivePid
      { spawnAttempted := true, probeCount := 0 }).1.spawnAttempted = true :=
  ⟨by decide, by decide, by decide, by decide,
    claim_c9_midstartup_keeps_flag envLivePid
      { spawnAttempted := true, probeCount := 0 } { pid := 4242, port := 7433 }
      (by decide) (by decide) (by decide) (by decide)⟩

/-- Witness for the amended C10: two pids congruent modulo 2^32 are judged
identically, and a pid with high low-32 bits is probed as a negative
value. -/
theorem claim_c10_truncation_witness :
    (2 ^ 31 + 5 : Nat) % 2 ^ 32 = (2 ^ 32 + 2 ^ 31 + 5 : Nat) % 2 ^ 32 ∧
    is_pid_running envKillNeg (2 ^ 31 + 5) =
      is_pid_running envKillNeg (2 ^ 32 + 2 ^ 31 + 5) ∧
    toI32 (2 ^ 31 + 5) < 0 :=
  have h := claim_c10_truncation envKillNeg (2 ^ 31 + 5) (2 ^ 32 + 2 ^ 31 + 5)
    (by decide)
  ⟨by decide, h.1, h.2.1 (by decide)⟩

end Hexdeck
